import Mathlib

/-!
Verification of the hybrid retrieval and relevance-scoring subsystem of the
financial-report pipeline (backend/core/hybrid_retriever.py): the scorer
(HybridRetrievalScorer), the query expander (QueryExpansion) and the
retriever orchestration (HybridRetriever.retrieve with its strategy
selection, channel querying, context filtering, scoring, sorting and
truncation).

Modelling conventions:
- Python floats are embedded as exact rationals; the decimal constants of
  the source (0.6, 0.3, 0.1, 0.5, 0.2) are representable exactly, and no
  claim in scope depends on binary rounding.
- Python strings are Lean strings; the substring operator of Python is
  modelled by an explicit list-of-characters scan, and Python str.lower is
  modelled character-wise on the ASCII letters (every character occurring
  in the vocabulary and in the claims is either ASCII or Chinese, and
  Chinese characters are case-invariant in Python as well).
- The character class of a digit in the regular expressions of the source
  is modelled by Char.isDigit; the Chinese numeral in the query of claim
  C2 is not a decimal digit under Python either.
- The external vector index of each channel is modelled as an optional
  function from query and requested size to a fallible list of scored
  nodes: an attached index may raise (Except.error), an unattached index
  is the Python value None.
- The stable sort of Python (list.sort with a key and reverse set) is
  modelled by a stable descending insertion sort on the comprehensive
  score.
-/

namespace HybridRetrieval

/-! ## String utilities modelling the Python primitives -/

/-- Character-wise lower-casing on the ASCII uppercase letters; models
Python str.lower for the character sets used by this program. -/
def lowerChar (c : Char) : Char :=
  match c with
  | 'A' => 'a' | 'B' => 'b' | 'C' => 'c' | 'D' => 'd' | 'E' => 'e'
  | 'F' => 'f' | 'G' => 'g' | 'H' => 'h' | 'I' => 'i' | 'J' => 'j'
  | 'K' => 'k' | 'L' => 'l' | 'M' => 'm' | 'N' => 'n' | 'O' => 'o'
  | 'P' => 'p' | 'Q' => 'q' | 'R' => 'r' | 'S' => 's' | 'T' => 't'
  | 'U' => 'u' | 'V' => 'v' | 'W' => 'w' | 'X' => 'x' | 'Y' => 'y'
  | 'Z' => 'z'
  | other => other

/-- Models Python str.lower. -/
def pyLower (s : String) : String := String.mk (s.data.map lowerChar)

/-- Bool-valued list prefix test (character lists). -/
def isPrefixList : List Char → List Char → Bool
  | [], _ => true
  | _ :: _, [] => false
  | a :: xs, b :: ys => a == b && isPrefixList xs ys

/-- Bool-valued contiguous-sublist test; models the Python operator
needle in hay on strings. -/
def containsSub (needle : List Char) (hay : List Char) : Bool :=
  match hay with
  | [] => needle.isEmpty
  | c :: t => isPrefixList needle (c :: t) || containsSub needle t

/-- Models the Python expression sub in hay for strings. -/
def strContains (hay sub : String) : Bool := containsSub sub.data hay.data

/-- Whitespace characters of the Python str.strip default and of the
regular-expression whitespace class (ASCII part). -/
def pyIsSpace (c : Char) : Bool :=
  c == ' ' || c == '\t' || c == '\n' || c == '\r' || c == '\x0b' || c == '\x0c'

/-- Models Python str.strip with no argument. -/
def pyStrip (s : String) : String :=
  String.mk (((s.data.dropWhile pyIsSpace).reverse.dropWhile pyIsSpace).reverse)

/-- Python truthiness-based or on strings: a or b. -/
def pyOr (a b : String) : String := if a = "" then b else a

/-- Digit list to number, models int() on a digit string. -/
def strToNat (l : List Char) : Nat := l.foldl (fun n c => n * 10 + (c.toNat - 48)) 0

/-- Models the Python builtin min on two numbers (the first argument is
returned on ties); kept as an explicit conditional so that it evaluates
by kernel reduction. -/
def pyMin (a b : ℚ) : ℚ := if a ≤ b then a else b

theorem pyMin_le_left (a b : ℚ) : pyMin a b ≤ a := by
  unfold pyMin
  split
  · exact le_rfl
  · linarith

theorem le_pyMin {c a b : ℚ} (h1 : c ≤ a) (h2 : c ≤ b) : c ≤ pyMin a b := by
  unfold pyMin
  split
  · exact h1
  · exact h2

theorem pyMin_mono_right {a b c : ℚ} (h : b ≤ c) : pyMin a b ≤ pyMin a c := by
  unfold pyMin
  split <;> split <;> linarith

/-! ## Data model -/

/-- The metadata keys of an indexed document that the retrieval core
reads; every key may be absent (Python dict.get). A Boolean flag read
with a False default is modelled as Bool, a string read with an empty
default as String. -/
structure Metadata where
  doc_type : Option String := none
  year : Option Int := none
  is_financial_statement : Bool := false
  financial_statement_type : String := ""
  filename : Option String := none
  source_file : Option String := none
  source : Option String := none
  company : Option String := none
deriving DecidableEq

/-- An indexed unit of retrievable content. -/
structure Document where
  text : String := ""
  metadata : Metadata := {}
deriving DecidableEq

/-! ## HybridRetrievalScorer -/

/-- The fixed weight configuration of the scorer. -/
structure ScorerWeights where
  semantic_similarity : ℚ
  metric_matching : ℚ
  year_consistency : ℚ
deriving DecidableEq

/-- Weight constants of HybridRetrievalScorer.__init__. -/
def weights : ScorerWeights :=
  { semantic_similarity := 6/10, metric_matching := 3/10, year_consistency := 1/10 }

/-- The fixed financial-metric keyword vocabulary of the scorer. -/
def financial_metrics : List String :=
  ["净利润", "ROE", "ROA", "负债率", "资产负债率", "流动比率",
   "营业收入", "营业利润", "毛利率", "净利率", "资产周转率",
   "现金流", "股东权益", "总资产", "总负债", "每股收益",
   "净资产", "流动资产", "非流动资产", "流动负债", "非流动负债",
   "营业成本", "销售费用", "管理费用", "财务费用", "研发费用"]

/-- The metric keywords of the vocabulary occurring in the lower-cased
query (the query_metrics list comprehension of _calculate_metric_score). -/
def queryMetricsOf (query : String) : List String :=
  financial_metrics.filter (fun metric => strContains (pyLower query) metric)

/-- The query metrics that also occur in the lower-cased document text
(the matched_metrics list comprehension of _calculate_metric_score). -/
def matchedMetricsOf (query : String) (document : Document) : List String :=
  (queryMetricsOf query).filter (fun metric => strContains (pyLower document.text) metric)

/-- HybridRetrievalScorer._calculate_metric_score. -/
def calculate_metric_score (query : String) (document : Document) : ℚ :=
  let queryMetrics := queryMetricsOf query
  if queryMetrics = [] then 1/2
  else
    let matchedMetrics := matchedMetricsOf query document
    let baseScore : ℚ := (matchedMetrics.length : ℚ) / (queryMetrics.length : ℚ)
    let baseScore :=
      if document.metadata.doc_type = some "table" ∧ matchedMetrics ≠ [] then
        baseScore + 2/10
      else baseScore
    pyMin baseScore 1

/-! ### Year extraction (_extract_years_from_text)

The source runs re.findall with five patterns.  For a pattern with two
capture groups findall yields pairs of strings, which the loop turns into
an inclusive integer range; for a pattern with a single capture group
findall yields plain strings, so such a match falls into the final else
branch of the loop and is appended as a bare integer.  In particular the
arm of the loop that would compute the window current_year−n+1 …
current_year for the pattern matching 近N年 is unreachable (it asks for a
tuple of length one, which findall never produces), so the ambient clock
never influences the result and is not a parameter of the model. -/

/-- Match exactly four digits at the head of the list. -/
def matchDigit4 (l : List Char) : Option (List Char × List Char) :=
  match l with
  | a :: b :: c :: d :: rest =>
    if a.isDigit && b.isDigit && c.isDigit && d.isDigit then
      some ([a, b, c, d], rest)
    else none
  | _ => none

/-- One match attempt of the pattern of four digits, a dash, four digits
and the year character. -/
def matchRangeDash (l : List Char) : Option ((List Char × List Char) × List Char) :=
  match matchDigit4 l with
  | none => none
  | some (y1, rest1) =>
    match rest1 with
    | '-' :: rest2 =>
      match matchDigit4 rest2 with
      | none => none
      | some (y2, rest3) =>
        match rest3 with
        | '年' :: rest4 => some ((y1, y2), rest4)
        | _ => none
    | _ => none

/-- One match attempt of the pattern of four digits and the year
character. -/
def matchSingleYear (l : List Char) : Option (List Char × List Char) :=
  match matchDigit4 l with
  | none => none
  | some (y1, rest1) =>
    match rest1 with
    | '年' :: rest2 => some (y1, rest2)
    | _ => none

/-- One match attempt of the pattern of four digits, a separator
character (到 or 至), and four digits. -/
def matchRangeSep (sep : Char) (l : List Char) : Option ((List Char × List Char) × List Char) :=
  match matchDigit4 l with
  | none => none
  | some (y1, rest1) =>
    match rest1 with
    | c :: rest2 =>
      if c == sep then
        match matchDigit4 rest2 with
        | none => none
        | some (y2, rest3) => some ((y1, y2), rest3)
      else none
    | [] => none

/-- One match attempt of the pattern 近, one digit, 年. -/
def matchRecentN (l : List Char) : Option (List Char × List Char) :=
  match l with
  | '近' :: d :: '年' :: rest => if d.isDigit then some ([d], rest) else none
  | _ => none

/-- Left-to-right non-overlapping scan, models re.findall for the
fixed-shape patterns above; the fuel argument is instantiated with the
text length, which suffices because every match consumes at least one
character. -/
def scanMatches {α : Type} (matchAt : List Char → Option (α × List Char)) :
    Nat → List Char → List α
  | 0, _ => []
  | _ + 1, [] => []
  | fuel + 1, c :: cs =>
    match matchAt (c :: cs) with
    | some (a, rest) => a :: scanMatches matchAt fuel rest
    | none => scanMatches matchAt fuel cs

/-- Inclusive integer range, models Python range(a, b + 1). -/
def rangeClosed (a b : Nat) : List Nat := List.range' a (b + 1 - a)

/-- Ascending insertion preserving order. -/
def insertAscNat (x : Nat) : List Nat → List Nat
  | [] => [x]
  | y :: ys => if x ≤ y then x :: y :: ys else y :: insertAscNat x ys

/-- Ascending insertion sort. -/
def sortAscNat : List Nat → List Nat
  | [] => []
  | x :: xs => insertAscNat x (sortAscNat xs)

/-- Remove adjacent duplicates of a sorted list. -/
def dedupAdjacent : List Nat → List Nat
  | [] => []
  | [x] => [x]
  | x :: y :: t => if x = y then dedupAdjacent (y :: t) else x :: dedupAdjacent (y :: t)

/-- Models Python sorted(set(l)) on integers. -/
def sortedSet (l : List Nat) : List Nat := dedupAdjacent (sortAscNat l)

/-- HybridRetrievalScorer._extract_years_from_text. -/
def extract_years_from_text (text : String) : List String :=
  let l := text.data
  let fuel := l.length
  let rangeDash := scanMatches matchRangeDash fuel l
  let singles := scanMatches matchSingleYear fuel l
  let rangeTo := scanMatches (matchRangeSep '到') fuel l
  let rangeZhi := scanMatches (matchRangeSep '至') fuel l
  let recents := scanMatches matchRecentN fuel l
  let years : List Nat :=
    rangeDash.flatMap (fun p => rangeClosed (strToNat p.1) (strToNat p.2)) ++
    singles.map strToNat ++
    rangeTo.flatMap (fun p => rangeClosed (strToNat p.1) (strToNat p.2)) ++
    rangeZhi.flatMap (fun p => rangeClosed (strToNat p.1) (strToNat p.2)) ++
    recents.map strToNat
  (sortedSet years).map (fun y => toString y)

/-- HybridRetrievalScorer._calculate_year_score.  The document year is
read with dict.get and tested for truthiness, so both an absent year and
the integer zero yield the score zero. -/
def calculate_year_score (query : String) (document : Document) : ℚ :=
  let queryYears := extract_years_from_text query
  if queryYears = [] then 0
  else
    match document.metadata.year with
    | none => 0
    | some docYear =>
      if docYear = 0 then 0
      else if queryYears.contains (toString docYear) then 1 else 0

/-- The statement-type keyword table of calculate_comprehensive_score. -/
def type_keywords : List (String × List String) :=
  [("利润表", ["利润", "收入", "成本", "profit", "revenue", "income"]),
   ("资产负债表", ["资产", "负债", "权益", "asset", "liability", "equity"]),
   ("现金流量表", ["现金流", "现金", "cash flow", "cash"])]

/-- The financial-statement bonus computed inline in
calculate_comprehensive_score: 0.2 for a financial-statement document,
escalated to 0.3 when its statement type is recognized and a keyword of
that type occurs in the lower-cased query. -/
def financial_statement_bonus (query : String) (document : Document) : ℚ :=
  if document.metadata.is_financial_statement then
    let queryLower := pyLower query
    let statementType := document.metadata.financial_statement_type
    if statementType ≠ "" then
      match type_keywords.lookup statementType with
      | some kws => if kws.any (fun kw => strContains queryLower kw) then 3/10 else 2/10
      | none => 2/10
    else 2/10
  else 0

/-- The score breakdown returned by calculate_comprehensive_score. -/
structure ScoreBreakdown where
  comprehensive_score : ℚ
  sim_score : ℚ
  metric_score : ℚ
  year_score : ℚ
  financial_statement_bonus : ℚ
  weights : ScorerWeights
deriving DecidableEq

/-- HybridRetrievalScorer.calculate_comprehensive_score. -/
def calculate_comprehensive_score (query : String) (document : Document)
    (semantic_score : ℚ) : ScoreBreakdown :=
  let simScore := semantic_score
  let metricScore := calculate_metric_score query document
  let yearScore := calculate_year_score query document
  let bonus := financial_statement_bonus query document
  let baseScore :=
    simScore * weights.semantic_similarity +
    metricScore * weights.metric_matching +
    yearScore * weights.year_consistency
  { comprehensive_score := pyMin 1 (baseScore + bonus)
    sim_score := simScore
    metric_score := metricScore
    year_score := yearScore
    financial_statement_bonus := bonus
    weights := weights }

/-! ## QueryExpansion -/

/-- The synonym table of QueryExpansion.__init__, in source order. -/
def financial_synonyms : List (String × List String) :=
  [("净利润", ["净利润", "盈余", "收益", "Profit", "Earnings", "净利"]),
   ("ROE", ["ROE", "净资产收益率", "权益回报率", "Return on Equity"]),
   ("营业收入", ["营业收入", "营收", "收入", "Revenue", "Sales"]),
   ("资产", ["资产", "Assets", "总资产", "净资产"]),
   ("负债", ["负债", "Liabilities", "总负债", "债务"]),
   ("资产总额", ["资产总额", "总资产", "资产合计", "Total Assets", "Assets"]),
   ("毛利率", ["毛利率", "Gross Margin", "毛利润率"]),
   ("净利率", ["净利率", "Net Margin", "净利润率"])]

/-- The expanded_terms list accumulated by expand_query: the synonyms of
every canonical term occurring in the query, in table order. -/
def expandedTermsOf (query : String) : List String :=
  (financial_synonyms.filter (fun p => strContains query p.1)).flatMap (fun p => p.2)

/-- QueryExpansion.expand_query. -/
def expand_query (query : String) : String :=
  let expandedTerms := expandedTermsOf query
  if expandedTerms = [] then query
  else query ++ " " ++ String.intercalate " " expandedTerms

/-! ## HybridRetriever: strategy selection -/

/-- The explicit financial-indicator keyword list of
_determine_retrieval_strategy. -/
def financial_indicator_keywords : List String :=
  ["营业收入", "营收", "收入", "净利润", "利润", "资产", "负债", "资产总额",
   "ROE", "ROA", "毛利率", "净利率", "总资产", "净资产", "股东权益",
   "营业成本", "销售费用", "管理费用", "财务费用"]

/-- The numeric keyword list of _determine_retrieval_strategy. -/
def numeric_keywords : List String :=
  ["增长率", "变化幅度", "同比", "环比", "数据", "数值", "金额", "比例", "趋势"]

/-- The semantic-analysis keyword list of _determine_retrieval_strategy. -/
def semantic_keywords : List String :=
  ["表现如何", "趋势说明", "分析", "评价", "情况", "概述"]

/-- Models any(keyword in query for keyword in keywords). -/
def containsAnyKeyword (query : String) (keywords : List String) : Bool :=
  keywords.any (fun kw => strContains query kw)

/-- HybridRetriever._determine_retrieval_strategy. -/
def determine_retrieval_strategy (query : String) : String :=
  if containsAnyKeyword query financial_indicator_keywords then "table_first"
  else if containsAnyKeyword query numeric_keywords then "table_first"
  else if containsAnyKeyword query semantic_keywords then "text_first"
  else "hybrid"

/-! ## HybridRetriever: channel querying -/

/-- A node returned by the underlying vector index; its score attribute
may be absent (the source reads it with getattr and a 0.0 default). -/
structure Node where
  document : Document
  score : Option ℚ
deriving DecidableEq

/-- The similarity-search primitive of an attached index: given the query
text and the requested neighbour count it either returns nodes or raises. -/
def IndexFn : Type := String → Nat → Except String (List Node)

/-- The retriever state reached after construction and index attachment:
each channel holds either an attached index or None. -/
structure RetrieverEnv where
  text_index : Option IndexFn
  table_index : Option IndexFn

/-- A raw candidate as assembled by the _retrieve_* helpers: the node and
its semantic score (0.0 when the node exposes none). -/
structure RawResult where
  document : Document
  semantic_score : ℚ
deriving DecidableEq

/-- The common body of the _retrieve_* helpers for one channel: an
unattached index contributes no candidates; an attached one is queried
and may raise. -/
def queryChannel (index : Option IndexFn) (query : String) (topK : Nat) :
    Except String (List RawResult) :=
  match index with
  | none => Except.ok []
  | some f =>
    match f query topK with
    | Except.error e => Except.error e
    | Except.ok nodes =>
      Except.ok (nodes.map (fun n => { document := n.document, semantic_score := n.score.getD 0 }))

/-- HybridRetriever._retrieve_text_first. -/
def retrieve_text_first (env : RetrieverEnv) (query : String) (topK : Nat) :
    Except String (List RawResult) :=
  queryChannel env.text_index query topK

/-- HybridRetriever._retrieve_table_first. -/
def retrieve_table_first (env : RetrieverEnv) (query : String) (topK : Nat) :
    Except String (List RawResult) :=
  queryChannel env.table_index query topK

/-- HybridRetriever._retrieve_hybrid: the text channel is queried first
and its results precede the table-channel results in the concatenation;
each channel is asked for half the requested count. -/
def retrieve_hybrid (env : RetrieverEnv) (query : String) (topK : Nat) :
    Except String (List RawResult) :=
  match queryChannel env.text_index query (topK / 2) with
  | Except.error e => Except.error e
  | Except.ok textResults =>
    match queryChannel env.table_index query (topK / 2) with
    | Except.error e => Except.error e
    | Except.ok tableResults => Except.ok (textResults ++ tableResults)

/-! ## HybridRetriever: context filter (_apply_context_filter) -/

/-- The caller-supplied context filter; every key is optional.  The year
value is the string to which the source coerces the supplied year. -/
structure ContextFilter where
  filename : Option String := none
  source_file : Option String := none
  company : Option String := none
  year : Option String := none
deriving DecidableEq

/-- Python truthiness of the context_filter argument: None and the empty
dict are falsy, a dict with at least one key is truthy. -/
def ContextFilter.isActive (cf : ContextFilter) : Bool :=
  cf.filename.isSome || cf.source_file.isSome || cf.company.isSome || cf.year.isSome

/-- Models re.sub of a trailing dot-extension with the empty string:
removes the last dot and everything after it when at least one non-dot
character follows the last dot. -/
def removeExtension (s : String) : String :=
  let rev := s.data.reverse
  let ext := rev.takeWhile (fun c => !(c == '.'))
  if ext.length = 0 ∨ ext.length = rev.length then s
  else String.mk ((rev.drop (ext.length + 1)).reverse)

/-- The separator class of the filename-key cleanup: underscore, hyphen
and whitespace. -/
def isSepChar (c : Char) : Bool := c == '_' || c == '-' || pyIsSpace c

/-- Models re.sub removing every separator character. -/
def stripSeparators (s : String) : String :=
  String.mk (s.data.filter (fun c => !(isSepChar c)))

/-- Models re.sub removing every separator character and dot (the
company-key cleanup additionally strips dots). -/
def stripSeparatorsAndDots (s : String) : String :=
  String.mk (s.data.filter (fun c => !(isSepChar c || c == '.')))

/-- The part of a character list before the first occurrence of the
needle; models str.split(needle)[0]. -/
def splitBeforeList (needle : List Char) : List Char → List Char
  | [] => []
  | c :: cs => if isPrefixList needle (c :: cs) then [] else c :: splitBeforeList needle cs

/-- Models str.split(needle)[0] on strings. -/
def splitBefore (s needle : String) : String := String.mk (splitBeforeList needle.data s.data)

/-- The filename check of _apply_context_filter: exact normalized match
first, else comparison of the first three characters of the key forms
(extension and separators stripped); a filter value shorter than three
characters that is not an exact match rejects. -/
def checkFilename (cf : ContextFilter) (d : Document) : Bool :=
  match cf.filename with
  | none => true
  | some filename =>
    let m := d.metadata
    let docFilename :=
      pyOr (m.filename.getD "") (pyOr (m.source_file.getD "") (m.source.getD ""))
    let docFilename :=
      if docFilename = "" ∧ (m.source.getD "") ≠ "" then
        let source := m.source.getD ""
        if strContains source "_page_" then splitBefore source "_page_" else source
      else docFilename
    let fn := pyStrip (pyLower filename)
    let dn := pyStrip (pyLower docFilename)
    if fn = dn then true
    else if fn.data.length ≥ 3 then
      let fk := stripSeparators (removeExtension fn)
      let dk := stripSeparators (removeExtension dn)
      if fk.data.length ≥ 3 ∧ dk.data.length ≥ 3 then
        decide (fk.data.take 3 = dk.data.take 3)
      else false
    else false

/-- The source-file check of _apply_context_filter: bidirectional
substring containment. -/
def checkSourceFile (cf : ContextFilter) (d : Document) : Bool :=
  match cf.source_file with
  | none => true
  | some sourceFile =>
    let docSource := pyOr (d.metadata.source_file.getD "") (d.metadata.filename.getD "")
    if ¬ (strContains docSource sourceFile = true) ∧ ¬ (strContains sourceFile docSource = true) then
      false
    else true

/-- The report-type literals stripped from a filename when deriving the
company key, in the alternation order of the source pattern. -/
def reportKeywordLiterals : List (List Char) :=
  ["利润表".data, "资产负债表".data, "现金流量表".data, "年报".data,
   "报告".data, "财务报表".data, "财务报告".data]

/-- First literal of the alternation matching at the head of the list,
returning its length. -/
def firstLiteralMatch (lits : List (List Char)) (l : List Char) : Option Nat :=
  match lits with
  | [] => none
  | lit :: rest => if isPrefixList lit l then some lit.length else firstLiteralMatch rest l

/-- Match of four digits optionally followed by the year character (the
final alternation branch of the company-key cleanup pattern). -/
def matchDigit4OptYear (l : List Char) : Option Nat :=
  match l with
  | a :: b :: c :: d :: rest =>
    if a.isDigit && b.isDigit && c.isDigit && d.isDigit then
      match rest with
      | '年' :: _ => some 5
      | _ => some 4
    else none
  | _ => none

/-- One match attempt of the company-key cleanup alternation. -/
def reportPatternAt (l : List Char) : Option Nat :=
  match firstLiteralMatch reportKeywordLiterals l with
  | some n => some n
  | none => matchDigit4OptYear l

/-- One match attempt of the pattern 年度 followed by one or more
digits. -/
def matchYearCountAt (l : List Char) : Option Nat :=
  match l with
  | '年' :: '度' :: rest =>
    let ds := rest.takeWhile Char.isDigit
    if ds.length = 0 then none else some (2 + ds.length)
  | _ => none

/-- Left-to-right non-overlapping deletion of every match, models re.sub
with the empty replacement; every pattern used consumes at least two
characters, so the text length suffices as fuel. -/
def removeAllMatches (matchAt : List Char → Option Nat) : Nat → List Char → List Char
  | 0, l => l
  | _ + 1, [] => []
  | fuel + 1, c :: cs =>
    match matchAt (c :: cs) with
    | some n => removeAllMatches matchAt fuel ((c :: cs).drop n)
    | none => c :: removeAllMatches matchAt fuel cs

/-- Strips report-type keywords and 4-digit years (with optional year
character) from a lower-cased filename. -/
def removeReportKeywords (s : String) : String :=
  String.mk (removeAllMatches reportPatternAt s.data.length s.data)

/-- Strips the year-count artifact 年度N. -/
def removeYearCount (s : String) : String :=
  String.mk (removeAllMatches matchYearCountAt s.data.length s.data)

/-- The company check of _apply_context_filter: filename-derived company
key first (3-character prefix or bidirectional containment, 2-character
prefix for short names), falling back to document text and company
metadata. -/
def checkCompany (cf : ContextFilter) (d : Document) : Bool :=
  match cf.company with
  | none => true
  | some company =>
    let m := d.metadata
    let docText := pyLower d.text
    let docCompany := pyLower (m.company.getD "")
    let docFilename := pyLower (pyOr (m.filename.getD "") (m.source_file.getD ""))
    let companyLower := pyLower company
    let filenameCompany : Option String :=
      if docFilename ≠ "" then
        let clean := stripSeparatorsAndDots (removeYearCount (removeReportKeywords docFilename))
        if clean.data.length ≥ 2 then some clean else none
      else none
    let found0 :=
      match filenameCompany with
      | some fc =>
        if companyLower.data.length ≥ 3 ∧ fc.data.length ≥ 3 then
          if companyLower.data.take 3 = fc.data.take 3 then true
          else strContains fc companyLower || strContains companyLower fc
        else if companyLower.data.length ≥ 2 ∧ fc.data.length ≥ 2 then
          decide (companyLower.data.take 2 = fc.data.take 2)
        else false
      | none => false
    let found1 :=
      if ¬ (found0 = true) ∧ companyLower.data.length ≥ 3 ∧ strContains docText companyLower = true then
        true
      else found0
    let found2 :=
      if ¬ (found1 = true) ∧ docCompany ≠ "" ∧
          (strContains docCompany companyLower || strContains companyLower docCompany) = true then
        true
      else found1
    found2

/-- The year check of _apply_context_filter: the document year is read
with dict.get and coerced to a string with an empty default; an empty
string is falsy, so a document without year metadata passes this check
vacuously. -/
def checkYear (cf : ContextFilter) (d : Document) : Bool :=
  match cf.year with
  | none => true
  | some filterYear =>
    let docYear := match d.metadata.year with
      | none => ""
      | some y => toString y
    if docYear ≠ "" ∧ filterYear ≠ docYear then false else true

/-- The per-candidate match flag of _apply_context_filter: initialized to
True and cleared by any failing check (the sequential checks are guarded
by the running flag, which is the conjunction of the four checks). -/
def matchesContextFilter (cf : ContextFilter) (d : Document) : Bool :=
  checkFilename cf d && checkSourceFile cf d && checkCompany cf d && checkYear cf d

/-- HybridRetriever._apply_context_filter. -/
def apply_context_filter (results : List RawResult) (cf : ContextFilter) : List RawResult :=
  results.filter (fun r => matchesContextFilter cf r.document)

/-! ## HybridRetriever.retrieve -/

/-- A scored candidate as assembled by retrieve step 5. -/
structure ScoredCandidate where
  document : Document
  semantic_score : ℚ
  comprehensive_score : ℚ
  sim_score : ℚ
  metric_score : ℚ
  year_score : ℚ
  strategy : String
deriving DecidableEq

/-- Scoring of one surviving candidate with the original query (retrieve
step 5). -/
def scoreCandidate (query strategy : String) (r : RawResult) : ScoredCandidate :=
  let sb := calculate_comprehensive_score query r.document r.semantic_score
  { document := r.document
    semantic_score := r.semantic_score
    comprehensive_score := sb.comprehensive_score
    sim_score := sb.sim_score
    metric_score := sb.metric_score
    year_score := sb.year_score
    strategy := strategy }

/-- Stable descending insertion on the comprehensive score: the new
element, which comes earlier in the original list, is placed before
every element whose score is not larger. -/
def insertDesc (x : ScoredCandidate) : List ScoredCandidate → List ScoredCandidate
  | [] => [x]
  | y :: ys =>
    if y.comprehensive_score ≤ x.comprehensive_score then x :: y :: ys
    else y :: insertDesc x ys

/-- Stable descending insertion sort on the comprehensive score, the
model of list.sort with the comprehensive-score key and reverse set
(retrieve step 6). -/
def sortByScoreDesc : List ScoredCandidate → List ScoredCandidate
  | [] => []
  | x :: xs => insertDesc x (sortByScoreDesc xs)

/-- Strategy resolution of retrieve step 2: auto is resolved from the
original query, any other value is used as given. -/
def resolveStrategy (strategy query : String) : String :=
  if strategy = "auto" then determine_retrieval_strategy query else strategy

/-- The internally requested neighbour count of retrieve step 3: tripled
when a truthy context filter is supplied. -/
def expandedTopKOf (topK : Nat) (cf : ContextFilter) : Nat :=
  if cf.isActive then topK * 3 else topK

/-- Strategy dispatch of retrieve step 3: text_first and table_first
query one channel, every other resolved value queries both. -/
def rawResultsExc (env : RetrieverEnv) (expandedQuery : String) (expandedTopK : Nat)
    (strategy : String) : Except String (List RawResult) :=
  if strategy = "text_first" then retrieve_text_first env expandedQuery expandedTopK
  else if strategy = "table_first" then retrieve_table_first env expandedQuery expandedTopK
  else retrieve_hybrid env expandedQuery expandedTopK

/-- Filter application of retrieve step 4, guarded by the truthiness of
the context filter. -/
def filteredResults (results : List RawResult) (cf : ContextFilter) : List RawResult :=
  if cf.isActive then apply_context_filter results cf else results

/-- The body of HybridRetriever.retrieve inside its try block: expansion,
strategy resolution, channel querying (the only fallible step), context
filtering, scoring with the original query, stable descending sort and
truncation to the requested count. -/
def retrieveExc (env : RetrieverEnv) (query : String) (topK : Nat) (strategy : String)
    (cf : ContextFilter) : Except String (List ScoredCandidate) :=
  match rawResultsExc env (expand_query query) (expandedTopKOf topK cf)
      (resolveStrategy strategy query) with
  | Except.error e => Except.error e
  | Except.ok results =>
    Except.ok ((sortByScoreDesc
      ((filteredResults results cf).map
        (scoreCandidate query (resolveStrategy strategy query)))).take topK)

/-- HybridRetriever.retrieve: the top-level except handler converts any
raised exception into the empty result list. -/
def retrieve (env : RetrieverEnv) (query : String) (topK : Nat) (strategy : String)
    (cf : ContextFilter) : List ScoredCandidate :=
  match retrieveExc env query topK strategy cf with
  | Except.ok r => r
  | Except.error _ => []

/-! ## Helper lemmas about the scorer -/

theorem metric_score_nonneg (query : String) (document : Document) :
    0 ≤ calculate_metric_score query document := by
  simp only [calculate_metric_score]
  split
  · norm_num
  · refine le_pyMin ?_ (by norm_num)
    have hbase : (0 : ℚ) ≤
        ((matchedMetricsOf query document).length : ℚ) / ((queryMetricsOf query).length : ℚ) := by
      positivity
    split
    · linarith
    · exact hbase

theorem year_score_eq_zero_or_one (query : String) (document : Document) :
    calculate_year_score query document = 0 ∨ calculate_year_score query document = 1 := by
  simp only [calculate_year_score]
  split
  · exact Or.inl rfl
  · split
    · exact Or.inl rfl
    · split
      · exact Or.inl rfl
      · split
        · exact Or.inr rfl
        · exact Or.inl rfl

theorem year_score_nonneg (query : String) (document : Document) :
    0 ≤ calculate_year_score query document := by
  rcases year_score_eq_zero_or_one query document with h | h <;> simp [h]

theorem bonus_nonneg (query : String) (document : Document) :
    0 ≤ financial_statement_bonus query document := by
  simp only [financial_statement_bonus]
  split
  · split
    · split
      · split <;> norm_num
      · norm_num
    · norm_num
  · norm_num

/-- Monotonicity of the comprehensive score in the bonus, for documents
with equal metric and year sub-scores. -/
theorem comp_mono (query : String) (d1 d2 : Document) (semantic_score : ℚ)
    (hm : calculate_metric_score query d1 = calculate_metric_score query d2)
    (hy : calculate_year_score query d1 = calculate_year_score query d2)
    (hb : financial_statement_bonus query d1 ≤ financial_statement_bonus query d2) :
    (calculate_comprehensive_score query d1 semantic_score).comprehensive_score ≤
    (calculate_comprehensive_score query d2 semantic_score).comprehensive_score := by
  simp only [calculate_comprehensive_score]
  rw [hm, hy]
  exact pyMin_mono_right (by linarith)

/-! ## Claim theorems -/

/-- Claim C1, counterexample: the source clamps the comprehensive score
only from above, so a negative semantic score (the spec allows cosine
similarity in the interval from −1 to 1) drives the comprehensive score
below zero: for a query with no metric keywords and no years and a
document with empty metadata, semantic score −1 yields −9/20. -/
theorem c1_counterexample :
    (calculate_comprehensive_score "abc" {} (-1)).comprehensive_score = -9/20 ∧
    ¬ (0 ≤ (calculate_comprehensive_score "abc" {} (-1)).comprehensive_score ∧
       (calculate_comprehensive_score "abc" {} (-1)).comprehensive_score ≤ 1) := by
  have hq : queryMetricsOf "abc" = [] := by decide
  have hy : extract_years_from_text "abc" = [] := by decide
  have hm : calculate_metric_score "abc" {} = 1/2 := by simp [calculate_metric_score, hq]
  have hys : calculate_year_score "abc" {} = 0 := by simp [calculate_year_score, hy]
  have hb : financial_statement_bonus "abc" {} = 0 := rfl
  have hv : (calculate_comprehensive_score "abc" {} (-1)).comprehensive_score = -9/20 := by
    simp only [calculate_comprehensive_score, hm, hys, hb, weights]
    norm_num [pyMin]
  refine ⟨hv, ?_⟩
  rw [hv]
  norm_num

/-- Claim C1, amended: the three scorer weights sum to 1; the
comprehensive score never exceeds 1; and whenever the semantic score lies
in the unit interval, the comprehensive score lies in the unit interval
as well. -/
theorem c1_weights_sum_and_clamped_range :
    (weights.semantic_similarity + weights.metric_matching + weights.year_consistency = 1) ∧
    ∀ (query : String) (document : Document) (semantic_score : ℚ),
      (calculate_comprehensive_score query document semantic_score).comprehensive_score ≤ 1 ∧
      (0 ≤ semantic_score → semantic_score ≤ 1 →
        0 ≤ (calculate_comprehensive_score query document semantic_score).comprehensive_score) := by
  constructor
  · norm_num [weights]
  · intro query document semantic_score
    constructor
    · simp only [calculate_comprehensive_score]
      exact min_le_left _ _
    · intro h0 _
      simp only [calculate_comprehensive_score]
      refine le_pyMin (by norm_num) ?_
      have hm := metric_score_nonneg query document
      have hy := year_score_nonneg query document
      have hb := bonus_nonneg query document
      simp only [weights]
      nlinarith

/-- Witness for the amended claim C1 at a concrete input. -/
theorem c1_witness :
    ((0 : ℚ) ≤ 1/2 ∧ (1 : ℚ)/2 ≤ 1) ∧
    0 ≤ (calculate_comprehensive_score "abc" {} (1/2)).comprehensive_score :=
  ⟨⟨by norm_num, by norm_num⟩,
   ((c1_weights_sum_and_clamped_range.2 "abc" {} (1/2)).2 (by norm_num) (by norm_num))⟩

/-- Claim C2 (code bug): for the query of the claim the source extracts
no years at all, because the Chinese numeral in 近三年 is not matched by
the digit class of the pattern, so the candidate with year 2023 receives
year score 0, not 1; moreover even the Arabic-digit form 近3年 yields the
bare year string 3 rather than a relative window, because re.findall
returns plain strings for the single-group pattern, leaving the
relative-window arm of the loop unreachable. -/
theorem c2_relative_window_unreachable :
    extract_years_from_text "近三年 净利润趋势" = [] ∧
    calculate_year_score "近三年 净利润趋势" { metadata := { year := some 2023 } } = 0 ∧
    calculate_year_score "近三年 净利润趋势" { metadata := { year := some 2020 } } = 0 ∧
    extract_years_from_text "近3年" = ["3"] := by
  have hy : extract_years_from_text "近三年 净利润趋势" = [] := by decide
  refine ⟨hy, ?_, ?_, by decide⟩ <;> simp [calculate_year_score, hy]

/-- Claim C3: the metric score is the neutral 1/2 exactly when no
vocabulary keyword occurs in the lower-cased query, regardless of the
document; otherwise it is the matched fraction plus a flat 2/10 table
bonus when the document is a table and at least one metric matched,
clamped to at most 1. -/
theorem c3_metric_score_spec :
    ∀ (query : String) (document : Document),
      (queryMetricsOf query = [] → calculate_metric_score query document = 1/2) ∧
      (queryMetricsOf query ≠ [] →
        calculate_metric_score query document =
          pyMin (((matchedMetricsOf query document).length : ℚ) /
                ((queryMetricsOf query).length : ℚ) +
               (if document.metadata.doc_type = some "table" ∧
                   matchedMetricsOf query document ≠ [] then 2/10 else 0)) 1) := by
  intro query document
  constructor
  · intro h
    simp [calculate_metric_score, h]
  · intro h
    simp only [calculate_metric_score, if_neg h]
    by_cases hc : document.metadata.doc_type = some "table" ∧ matchedMetricsOf query document ≠ []
    · rw [if_pos hc, if_pos hc]
    · rw [if_neg hc, if_neg hc, add_zero]

/-- Witness for claim C3 at concrete inputs covering both branches. -/
theorem c3_witness :
    calculate_metric_score "abc" {} = 1/2 ∧
    calculate_metric_score "净利润情况"
      { text := "净利润100", metadata := { doc_type := some "table" } } = 1 := by
  constructor
  · exact (c3_metric_score_spec "abc" {}).1 (by decide)
  · have h := (c3_metric_score_spec "净利润情况"
      { text := "净利润100", metadata := { doc_type := some "table" } }).2 (by decide)
    rw [h]
    have hq : queryMetricsOf "净利润情况" = ["净利润"] := by decide
    have hmm : matchedMetricsOf "净利润情况"
        { text := "净利润100", metadata := { doc_type := some "table" } } = ["净利润"] := by decide
    rw [hq, hmm]
    rw [if_pos ⟨rfl, by decide⟩]
    norm_num [pyMin]

/-- Claim C6: of two documents identical except for the financial
statement flag, the flagged one never scores lower: its bonus is
nonnegative while the unflagged bonus is zero, and the other sub-scores
agree. -/
theorem c6_financial_statement_flag_monotone :
    ∀ (query text : String) (m : Metadata) (semantic_score : ℚ),
      (calculate_comprehensive_score query
        { text := text, metadata := { m with is_financial_statement := false } }
        semantic_score).comprehensive_score ≤
      (calculate_comprehensive_score query
        { text := text, metadata := { m with is_financial_statement := true } }
        semantic_score).comprehensive_score := by
  intro query text m semantic_score
  apply comp_mono
  · rfl
  · rfl
  · have h := bonus_nonneg query
      { text := text, metadata := { m with is_financial_statement := true } }
    have h0 : financial_statement_bonus query
        { text := text, metadata := { m with is_financial_statement := false } } = 0 := rfl
    rw [h0]
    exact h

/-- Claim C7: strategy selection is a pure function of the original
query applying the fixed precedence (financial indicator first, then
numeric, then semantic, else hybrid); the query 毛利率分析, which
contains both the financial indicator 毛利率 and the semantic keyword
分析, resolves to table_first; and the auto strategy of retrieve resolves
through this function. -/
theorem c7_strategy_precedence :
    ∀ (query : String),
      (containsAnyKeyword query financial_indicator_keywords = true →
        determine_retrieval_strategy query = "table_first") ∧
      (containsAnyKeyword query financial_indicator_keywords = false →
        containsAnyKeyword query numeric_keywords = true →
        determine_retrieval_strategy query = "table_first") ∧
      (containsAnyKeyword query financial_indicator_keywords = false →
        containsAnyKeyword query numeric_keywords = false →
        containsAnyKeyword query semantic_keywords = true →
        determine_retrieval_strategy query = "text_first") ∧
      (containsAnyKeyword query financial_indicator_keywords = false →
        containsAnyKeyword query numeric_keywords = false →
        containsAnyKeyword query semantic_keywords = false →
        determine_retrieval_strategy query = "hybrid") ∧
      (resolveStrategy "auto" query = determine_retrieval_strategy query) ∧
      determine_retrieval_strategy "毛利率分析" = "table_first" ∧
      containsAnyKeyword "毛利率分析" financial_indicator_keywords = true ∧
      containsAnyKeyword "毛利率分析" semantic_keywords = true := by
  intro query
  refine ⟨?_, ?_, ?_, ?_, rfl, by decide, by decide, by decide⟩
  · intro h1
    simp [determine_retrieval_strategy, h1]
  · intro h1 h2
    simp [determine_retrieval_strategy, h1, h2]
  · intro h1 h2 h3
    simp [determine_retrieval_strategy, h1, h2, h3]
  · intro h1 h2 h3
    simp [determine_retrieval_strategy, h1, h2, h3]

/-- Witness for claim C7: one concrete query per precedence branch. -/
theorem c7_witness :
    determine_retrieval_strategy "净利润" = "table_first" ∧
    determine_retrieval_strategy "数据" = "table_first" ∧
    determine_retrieval_strategy "分析" = "text_first" ∧
    determine_retrieval_strategy "hello" = "hybrid" :=
  ⟨(c7_strategy_precedence "净利润").1 (by decide),
   (c7_strategy_precedence "数据").2.1 (by decide) (by decide),
   (c7_strategy_precedence "分析").2.2.1 (by decide) (by decide) (by decide),
   (c7_strategy_precedence "hello").2.2.2.1 (by decide) (by decide) (by decide)⟩

/-- Claim C8: query expansion only appends: the result always has the
original query as a prefix; with no matching canonical term the query is
returned unchanged, and otherwise the space-joined synonyms of every
matching term follow the query after one space. -/
theorem c8_expand_query_additive :
    ∀ (query : String),
      (∃ suffix, expand_query query = query ++ suffix) ∧
      (expandedTermsOf query = [] → expand_query query = query) ∧
      (expandedTermsOf query ≠ [] →
        expand_query query =
          query ++ " " ++ String.intercalate " " (expandedTermsOf query)) := by
  intro query
  refine ⟨?_, ?_, ?_⟩
  · by_cases h : expandedTermsOf query = []
    · exact ⟨"", by simp [expand_query, h]⟩
    · refine ⟨" " ++ String.intercalate " " (expandedTermsOf query), ?_⟩
      simp [expand_query, h, String.append_assoc]
  · intro h
    simp [expand_query, h]
  · intro h
    simp [expand_query, h]

/-- Witness for claim C8: a query with no matching canonical term and
one that matches a single term. -/
theorem c8_witness :
    expand_query "abc" = "abc" ∧
    expand_query "毛利率" = "毛利率" ++ " " ++ String.intercalate " " (expandedTermsOf "毛利率") :=
  ⟨(c8_expand_query_additive "abc").2.1 (by decide),
   (c8_expand_query_additive "毛利率").2.2 (by decide)⟩

/-- Claim C9: a document without year metadata always passes the year
check of the context filter (and in particular survives a filter whose
only key is the year), while the scorer gives the same document year
score zero whenever the query has extractable years. -/
theorem c9_year_filter_lenient_scorer_strict :
    ∀ (cf : ContextFilter) (d : Document) (query yv : String)
      (results : List RawResult) (r : RawResult),
      (d.metadata.year = none → checkYear cf d = true) ∧
      (r ∈ results → r.document.metadata.year = none →
        r ∈ apply_context_filter results { year := some yv }) ∧
      (extract_years_from_text query ≠ [] → d.metadata.year = none →
        calculate_year_score query d = 0) := by
  intro cf d query yv results r
  refine ⟨?_, ?_, ?_⟩
  · intro h
    unfold checkYear
    cases hcf : cf.year with
    | none => rfl
    | some fy => simp [h]
  · intro hmem hnone
    unfold apply_context_filter
    rw [List.mem_filter]
    refine ⟨hmem, ?_⟩
    have h4 : checkYear { year := some yv } r.document = true := by
      unfold checkYear
      simp [hnone]
    unfold matchesContextFilter
    rw [h4]
    rfl
  · intro hq hnone
    unfold calculate_year_score
    simp [hq, hnone]

/-- Witness for claim C9 at a concrete undated document. -/
theorem c9_witness :
    checkYear { year := some "2024" } { text := "t" } = true ∧
    ({ document := { text := "t" }, semantic_score := 1/2 } : RawResult) ∈
      apply_context_filter [{ document := { text := "t" }, semantic_score := 1/2 }]
        { year := some "2024" } ∧
    calculate_year_score "2023年" { text := "t" } = 0 := by
  refine ⟨?_, ?_, ?_⟩
  · exact (c9_year_filter_lenient_scorer_strict { year := some "2024" } { text := "t" }
      "2023年" "2024" [] { document := { text := "t" }, semantic_score := 1/2 }).1 rfl
  · exact (c9_year_filter_lenient_scorer_strict { year := some "2024" } { text := "t" }
      "2023年" "2024" [{ document := { text := "t" }, semantic_score := 1/2 }]
      { document := { text := "t" }, semantic_score := 1/2 }).2.1 (by simp) rfl
  · exact (c9_year_filter_lenient_scorer_strict { year := some "2024" } { text := "t" }
      "2023年" "2024" [] { document := { text := "t" }, semantic_score := 1/2 }).2.2
      (by decide) rfl

theorem lowerChar_ne_R (c : Char) : lowerChar c ≠ 'R' := by
  unfold lowerChar
  split <;> simp_all

theorem containsSub_head_mem {c : Char} {rest hay : List Char}
    (h : containsSub (c :: rest) hay = true) : c ∈ hay := by
  induction hay with
  | nil => simp [containsSub] at h
  | cons hd tl ih =>
    simp only [containsSub, Bool.or_eq_true] at h
    rcases h with h | h
    · simp only [isPrefixList, Bool.and_eq_true, beq_iff_eq] at h
      rw [h.1]
      exact List.mem_cons_self hd tl
    · exact List.mem_cons_of_mem hd (ih h)

/-- Claim C10: the query is lower-cased before the case-sensitive
substring test, so the upper-case vocabulary entries ROE and ROA can
never be recognized as query metrics: no lower-cased query contains
them, they never enter the query-metric list, and a query containing ROE
and no other metric keyword receives the neutral metric score 1/2 for
every document. -/
theorem c10_uppercase_metrics_unreachable :
    ∀ (query : String) (document : Document),
      strContains (pyLower query) "ROE" = false ∧
      strContains (pyLower query) "ROA" = false ∧
      "ROE" ∉ queryMetricsOf query ∧
      "ROA" ∉ queryMetricsOf query ∧
      "ROE" ∈ financial_metrics ∧
      "ROA" ∈ financial_metrics ∧
      calculate_metric_score "ROE水平" document = 1/2 := by
  intro query document
  have key : ∀ (rest : List Char), containsSub ('R' :: rest) (pyLower query).data = false := by
    intro rest
    cases hcs : containsSub ('R' :: rest) (pyLower query).data with
    | false => rfl
    | true =>
      exfalso
      have hmem := containsSub_head_mem hcs
      have hdata : (pyLower query).data = query.data.map lowerChar := rfl
      rw [hdata] at hmem
      obtain ⟨c, _, hc⟩ := List.mem_map.mp hmem
      exact lowerChar_ne_R c hc
  have hROE : strContains (pyLower query) "ROE" = false := key ['O', 'E']
  have hROA : strContains (pyLower query) "ROA" = false := key ['O', 'A']
  refine ⟨hROE, hROA, ?_, ?_, by decide, by decide, ?_⟩
  · intro hmem
    have h2 := (List.mem_filter.mp hmem).2
    rw [hROE] at h2
    exact Bool.false_ne_true h2
  · intro hmem
    have h2 := (List.mem_filter.mp hmem).2
    rw [hROA] at h2
    exact Bool.false_ne_true h2
  · have hq : queryMetricsOf "ROE水平" = [] := by decide
    simp [calculate_metric_score, hq]

/-! ## Lemmas about the stable descending sort -/

theorem mem_insertDesc {x z : ScoredCandidate} {l : List ScoredCandidate} :
    z ∈ insertDesc x l ↔ z = x ∨ z ∈ l := by
  induction l with
  | nil => simp [insertDesc]
  | cons y ys ih =>
    unfold insertDesc
    split
    · simp [List.mem_cons]
    · simp only [List.mem_cons, ih]
      tauto

theorem pairwise_insertDesc {x : ScoredCandidate} {l : List ScoredCandidate}
    (h : l.Pairwise (fun a b => b.comprehensive_score ≤ a.comprehensive_score)) :
    (insertDesc x l).Pairwise (fun a b => b.comprehensive_score ≤ a.comprehensive_score) := by
  induction l with
  | nil => simp [insertDesc]
  | cons y ys ih =>
    unfold insertDesc
    rcases List.pairwise_cons.mp h with ⟨hy, hys⟩
    split
    · rename_i hc
      refine List.Pairwise.cons ?_ h
      intro z hz
      rcases List.mem_cons.mp hz with rfl | hz2
      · exact hc
      · exact le_trans (hy z hz2) hc
    · rename_i hc
      refine List.Pairwise.cons ?_ (ih hys)
      intro z hz
      rcases mem_insertDesc.mp hz with rfl | hz2
      · exact le_of_lt (lt_of_not_le hc)
      · exact hy z hz2

theorem pairwise_sortByScoreDesc (l : List ScoredCandidate) :
    (sortByScoreDesc l).Pairwise (fun a b => b.comprehensive_score ≤ a.comprehensive_score) := by
  induction l with
  | nil => exact List.Pairwise.nil
  | cons x xs ih => exact pairwise_insertDesc ih

theorem filter_insertDesc (x : ScoredCandidate) (l : List ScoredCandidate) (c : ℚ) :
    (insertDesc x l).filter (fun a => decide (a.comprehensive_score = c)) =
    (x :: l).filter (fun a => decide (a.comprehensive_score = c)) := by
  induction l with
  | nil => rfl
  | cons y ys ih =>
    unfold insertDesc
    split
    · rfl
    · rename_i hc
      have hxy : x.comprehensive_score < y.comprehensive_score := lt_of_not_le hc
      by_cases hx : x.comprehensive_score = c
      · have hy : ¬ (y.comprehensive_score = c) := by
          intro h
          rw [hx, h] at hxy
          exact lt_irrefl c hxy
        simp [List.filter_cons, hx, hy, ih]
      · simp [List.filter_cons, hx, ih]

theorem filter_sortByScoreDesc (l : List ScoredCandidate) (c : ℚ) :
    (sortByScoreDesc l).filter (fun a => decide (a.comprehensive_score = c)) =
    l.filter (fun a => decide (a.comprehensive_score = c)) := by
  induction l with
  | nil => rfl
  | cons x xs ih =>
    rw [sortByScoreDesc, filter_insertDesc]
    simp [List.filter_cons, ih]

/-- Every retrieve result is either the empty list (a caught exception)
or the truncation of the stable descending sort of the scored surviving
candidates. -/
theorem retrieve_cases (env : RetrieverEnv) (query : String) (topK : Nat) (strategy : String)
    (cf : ContextFilter) :
    retrieve env query topK strategy cf = [] ∨
    ∃ scored, retrieve env query topK strategy cf = (sortByScoreDesc scored).take topK := by
  cases h : retrieveExc env query topK strategy cf with
  | error e => exact Or.inl (by simp [retrieve, h])
  | ok r =>
    have hr : retrieve env query topK strategy cf = r := by simp [retrieve, h]
    right
    unfold retrieveExc at h
    cases h2 : rawResultsExc env (expand_query query) (expandedTopKOf topK cf)
        (resolveStrategy strategy query) with
    | error e =>
      rw [h2] at h
      exact absurd h (by simp)
    | ok results =>
      rw [h2] at h
      rw [Except.ok.injEq] at h
      exact ⟨_, hr.trans h.symm⟩

/-- Claim C4: every retrieve call returns at most the requested count,
sorted non-increasingly by the comprehensive score; the sort used is
stable (candidates of equal score keep their input order), and in the
hybrid strategy the candidate list handed to scoring is the text-channel
results followed by the table-channel results. -/
theorem c4_retrieve_topk_sorted_stable :
    ∀ (env : RetrieverEnv) (query : String) (topK : Nat) (strategy : String)
      (cf : ContextFilter),
      (retrieve env query topK strategy cf).length ≤ topK ∧
      (retrieve env query topK strategy cf).Pairwise
        (fun a b => b.comprehensive_score ≤ a.comprehensive_score) ∧
      (∀ (l : List ScoredCandidate) (c : ℚ),
        (sortByScoreDesc l).filter (fun a => decide (a.comprehensive_score = c)) =
        l.filter (fun a => decide (a.comprehensive_score = c))) ∧
      (∀ (q2 : String) (k2 : Nat) (textResults tableResults : List RawResult),
        queryChannel env.text_index q2 (k2 / 2) = Except.ok textResults →
        queryChannel env.table_index q2 (k2 / 2) = Except.ok tableResults →
        retrieve_hybrid env q2 k2 = Except.ok (textResults ++ tableResults)) := by
  intro env query topK strategy cf
  refine ⟨?_, ?_, fun l c => filter_sortByScoreDesc l c, ?_⟩
  · rcases retrieve_cases env query topK strategy cf with h | ⟨s, h⟩
    · simp [h]
    · rw [h]
      exact List.length_take_le topK _
  · rcases retrieve_cases env query topK strategy cf with h | ⟨s, h⟩
    · simp [h]
    · rw [h]
      exact List.Pairwise.sublist (List.take_sublist topK _) (pairwise_sortByScoreDesc s)
  · intro q2 k2 textResults tableResults h1 h2
    unfold retrieve_hybrid
    rw [h1, h2]

/-- A two-channel environment whose attached indexes return one node
each, used by the claim witnesses. -/
def envTwo : RetrieverEnv :=
  { text_index := some (fun _ _ => Except.ok
      [{ document := { text := "文本段落" }, score := some (8/10) }])
    table_index := some (fun _ _ => Except.ok
      [{ document := { text := "表格数据", metadata := { doc_type := some "table" } },
         score := none }]) }

/-- Witness for claim C4: at a concrete two-channel environment the
hybrid strategy concatenates the text results before the table results,
and a node without a score attribute contributes semantic score 0. -/
theorem c4_witness :
    retrieve_hybrid envTwo "q" 4 = Except.ok
      [{ document := { text := "文本段落" }, semantic_score := 8/10 },
       { document := { text := "表格数据", metadata := { doc_type := some "table" } },
         semantic_score := 0 }] :=
  (c4_retrieve_topk_sorted_stable envTwo "q" 4 "auto" {}).2.2.2 "q" 4
    [{ document := { text := "文本段落" }, semantic_score := 8/10 }]
    [{ document := { text := "表格数据", metadata := { doc_type := some "table" } },
       semantic_score := 0 }] rfl rfl

/-- Claim C5: retrieve propagates no exception: an error raised anywhere
inside the body is converted into the empty result list at the top-level
handler, a success value is returned unchanged, an unattached channel
yields zero candidates instead of raising, and with both channels
unattached every call returns the empty list. -/
theorem c5_retrieve_degrades_not_raises :
    ∀ (env : RetrieverEnv) (query : String) (topK : Nat) (strategy : String)
      (cf : ContextFilter),
      (∀ e, retrieveExc env query topK strategy cf = Except.error e →
        retrieve env query topK strategy cf = []) ∧
      (∀ r, retrieveExc env query topK strategy cf = Except.ok r →
        retrieve env query topK strategy cf = r) ∧
      (∀ (q2 : String) (k2 : Nat),
        queryChannel none q2 k2 = Except.ok ([] : List RawResult)) ∧
      (env.text_index = none → env.table_index = none →
        retrieve env query topK strategy cf = []) := by
  intro env query topK strategy cf
  refine ⟨?_, ?_, fun q2 k2 => rfl, ?_⟩
  · intro e h
    simp [retrieve, h]
  · intro r h
    simp [retrieve, h]
  · intro ht htb
    have hraw : rawResultsExc env (expand_query query) (expandedTopKOf topK cf)
        (resolveStrategy strategy query) = Except.ok [] := by
      unfold rawResultsExc retrieve_text_first retrieve_table_first retrieve_hybrid
      rw [ht, htb]
      split
      · rfl
      · split
        · rfl
        · rfl
    simp [retrieve, retrieveExc, hraw, filteredResults, apply_context_filter]
    exact Or.inr rfl

/-- An environment whose only attached index raises, and a fully
unattached environment, for the claim witnesses. -/
def envBoom : RetrieverEnv :=
  { text_index := some (fun _ _ => Except.error "boom"), table_index := none }

def envEmpty : RetrieverEnv := { text_index := none, table_index := none }

/-- Witness for claim C5: a raising backend yields the empty list, an
unattached channel yields zero candidates, and a fully unattached
retriever returns the empty list. -/
theorem c5_witness :
    retrieve envBoom "净利润" 5 "text_first" {} = [] ∧
    queryChannel none "x" 3 = Except.ok ([] : List RawResult) ∧
    retrieve envEmpty "x" 2 "auto" {} = [] := by
  refine ⟨?_, ?_, ?_⟩
  · exact (c5_retrieve_degrades_not_raises envBoom "净利润" 5 "text_first" {}).1 "boom" rfl
  · exact (c5_retrieve_degrades_not_raises envEmpty "x" 3 "auto" {}).2.2.1 "x" 3
  · exact (c5_retrieve_degrades_not_raises envEmpty "x" 2 "auto" {}).2.2.2 rfl rfl

end HybridRetrieval
